import Mathlib

set_option maxHeartbeats 1000000

/-
Shallow embedding of the GameEngine class from src/js/gameEngine.js
("Fruit Catcher"). JS numbers are modelled as exact values: scores,
levels and the time limit as integers (they only ever hold integer
values), item positions, speeds and random draws as rationals (every
value the engine manipulates there is a multiple of 1/2, hence exact
in the doubles of the source as well; the spawn-probability literals
0.6 / 0.3 / 0.1 are written as exact rationals, which is faithful for
all claims handled here, none of which depends on the rounding of
those literals). Outbound callbacks (onScoreChange, onGameEnd,
onGameStateUpdate) are modelled as an emitted event list; callbacks
are assumed installed, matching the deployment in main.js. The three
scheduled handles (gameTimer, animationId, itemSpawnTimer) are
modelled as booleans recording whether the corresponding loop is
scheduled.
-/

namespace Game

/-- Item categories appearing in the itemTypes table of the constructor. -/
inductive ItemType where
  | apple
  | orange
  | bomb
deriving DecidableEq, Repr

/-- One entry of the static itemTypes table: category, score, speed,
spawn probability. -/
structure ItemSpec where
  type : ItemType
  score : ℤ
  speed : ℚ
  probability : ℚ
deriving DecidableEq, Repr

/-- itemTypes[0] : { type: "apple", score: 100, speed: 5, probability: 0.6 } -/
def appleSpec : ItemSpec :=
  { type := ItemType.apple, score := 100, speed := 5, probability := 3/5 }

/-- itemTypes[1] : { type: "orange", score: 200, speed: 7, probability: 0.3 } -/
def orangeSpec : ItemSpec :=
  { type := ItemType.orange, score := 200, speed := 7, probability := 3/10 }

/-- itemTypes[2] : { type: "bomb", score: 0, speed: 6, probability: 0.1 } -/
def bombSpec : ItemSpec :=
  { type := ItemType.bomb, score := 0, speed := 6, probability := 1/10 }

/-- The static category table, in source order. -/
def itemTypes : List ItemSpec := [appleSpec, orangeSpec, bombSpec]

/-- A falling item as built by spawnItem. The JS id field
(Date.now() + Math.random()) is not modelled: nothing reads it. -/
structure Item where
  type : ItemType
  score : ℤ
  speed : ℚ
  lane : ℕ
  y : ℚ
deriving DecidableEq, Repr

/-- The mutable fields of a GameEngine instance. gameTimerOn,
spawnTimerOn and animOn record whether gameTimer, itemSpawnTimer and
animationId currently hold a scheduled handle. -/
structure Engine where
  score : ℤ
  level : ℤ
  timeLimit : ℤ
  isGameActive : Bool
  basketPosition : ℕ
  items : List Item
  gameTimerOn : Bool
  spawnTimerOn : Bool
  animOn : Bool
deriving DecidableEq, Repr

/-- The state set up by the GameEngine constructor. -/
def engineInit : Engine :=
  { score := 0, level := 1, timeLimit := 0, isGameActive := false,
    basketPosition := 1, items := [], gameTimerOn := false,
    spawnTimerOn := false, animOn := false }

/-- Outbound notifications of the engine. -/
inductive GEvent where
  | scoreChange (score level : ℤ)
  | gameEnd (score level : ℤ)
  | stateUpdate (basketPosition : ℕ) (items : List Item)
      (timeLimit : ℤ) (score level : ℤ)
deriving DecidableEq, Repr

/-- notifyStateUpdate: the snapshot passed to onGameStateUpdate. -/
def stateSnapshot (s : Engine) : GEvent :=
  GEvent.stateUpdate s.basketPosition s.items s.timeLimit s.score s.level

/-- stop(): clears isGameActive, cancels the three scheduled loops,
then invokes onGameEnd with the current score and level. -/
def stop (s : Engine) : Engine × List GEvent :=
  let s2 := { s with isGameActive := false, gameTimerOn := false,
                     animOn := false, spawnTimerOn := false }
  (s2, [GEvent.gameEnd s2.score s2.level])

/-- addScore(points): adds points, recomputes
newLevel = Math.floor(score / 500) + 1, raises level if newLevel
exceeds it, then fires onScoreChange. Math.floor of an integer
quotient is Int.fdiv. -/
def addScore (s : Engine) (points : ℤ) : Engine × List GEvent :=
  let score2 := s.score + points
  let newLevel := Int.fdiv score2 500 + 1
  let level2 := if newLevel > s.level then newLevel else s.level
  let s2 := { s with score := score2, level := level2 }
  (s2, [GEvent.scoreChange s2.score s2.level])

/-- handleItemCollection(item): a bomb stops the game (the alert is
pure UI and not modelled); anything else is scored. -/
def handleItemCollection (s : Engine) (item : Item) : Engine × List GEvent :=
  if item.type = ItemType.bomb then stop s
  else addScore s item.score

/-- The category-selection loop of spawnItem: walk the table
accumulating probability; the first entry whose cumulative sum is
greater than or equal to rand is selected; if none is, the initial
selection (itemTypes[0]) stands. -/
def selectTypeAux (r : ℚ) : List ItemSpec → ℚ → ItemSpec → ItemSpec
  | [], _, sel => sel
  | sp :: rest, cum, sel =>
      let cum2 := cum + sp.probability
      if r ≤ cum2 then sp else selectTypeAux r rest cum2 sel

/-- Category selection of spawnItem for a draw r = Math.random(). -/
def selectType (r : ℚ) : ItemSpec := selectTypeAux r itemTypes 0 appleSpec

/-- The item built by spawnItem from the selected category after the
two level-gating corrections, with speed = base + level * 0.5 and
y = -50. -/
def mkSpawnedItem (level : ℤ) (laneIndex : ℕ) (r : ℚ) : Item :=
  let sel0 := selectType r
  let sel1 := if level < 2 ∧ sel0.type = ItemType.orange then appleSpec else sel0
  let sel2 := if level < 3 ∧ sel1.type = ItemType.bomb then appleSpec else sel1
  { type := sel2.type, score := sel2.score,
    speed := sel2.speed + (level : ℚ) * (1/2), lane := laneIndex, y := -50 }

/-- spawnItem(): laneIndex = Math.floor(Math.random() * 3) and
r = Math.random() are taken as inputs; the new item is pushed at the
end of this.items. -/
def spawnItem (s : Engine) (laneIndex : ℕ) (r : ℚ) : Engine :=
  { s with items := s.items ++ [mkSpawnedItem s.level laneIndex r] }

/-- The spawn delay of spawnLoop:
Math.max(800, 3000 - this.level * 400). -/
def spawnRate (level : ℤ) : ℤ := max 800 (3000 - level * 400)

/-- spawnLoop(): returns early when inactive; otherwise computes the
delay, spawns one item, and schedules itself again after that delay
(the returned Option is the delay passed to setTimeout, none when no
timeout was scheduled). -/
def spawnLoop (s : Engine) (laneIndex : ℕ) (r : ℚ) : Engine × Option ℤ :=
  if s.isGameActive = false then (s, none)
  else
    let rate := spawnRate s.level
    let s2 := spawnItem s laneIndex r
    ({ s2 with spawnTimerOn := true }, some rate)

/-- One step of the position update: item.y += item.speed. -/
def moveItem (it : Item) : Item := { it with y := it.y + it.speed }

/-- updateItems(): every item falls by its speed and items with
y > 600 are spliced out. The backwards splice loop touches each
element independently, i.e. it is a map followed by a filter. -/
def updateItems (s : Engine) : Engine :=
  { s with items := (s.items.map moveItem).filter (fun it => !decide (600 < it.y)) }

/-- The body of the checkCollisions loop, which walks this.items from
the last index down to 0: for the list it :: rest this processes rest
(the higher indices) first. An item within the hit band whose lane
matches the basket is handed to handleItemCollection and spliced out;
the others are kept in order. The third component is a ghost output
collecting exactly the spliced (collected) items; the fourth collects
the emitted events in execution order. -/
def checkCollisionsAux : List Item → Engine → Engine × List Item × List Item × List GEvent
  | [], s => (s, [], [], [])
  | it :: rest, s =>
      let res := checkCollisionsAux rest s
      let s1 := res.1
      let kept := res.2.1
      let col := res.2.2.1
      let evs := res.2.2.2
      if abs (it.y - 500) < 30 then
        if it.lane = s1.basketPosition then
          let hres := handleItemCollection s1 it
          (hres.1, kept, it :: col, evs ++ hres.2)
        else (s1, it :: kept, col, evs)
      else (s1, it :: kept, col, evs)

/-- checkCollisions(): runs the loop over this.items; the surviving
items are what the splices leave behind. -/
def checkCollisions (s : Engine) : Engine × List GEvent :=
  let res := checkCollisionsAux s.items s
  ({ res.1 with items := res.2.1 }, res.2.2.2)

/-- One tick of gameLoop(): return early when inactive; otherwise
updateItems, checkCollisions, notifyStateUpdate, and request the next
animation frame. -/
def gameLoop (s : Engine) : Engine × List GEvent :=
  if s.isGameActive = false then (s, [])
  else
    let s1 := updateItems s
    let res := checkCollisions s1
    let s2 := res.1
    ({ s2 with animOn := true }, res.2 ++ [stateSnapshot s2])

/-- One firing of the setInterval callback installed by startTimer():
decrement timeLimit, notify, and stop once timeLimit is down to 0. -/
def timerTick (s : Engine) : Engine × List GEvent :=
  let s1 := { s with timeLimit := s.timeLimit - 1 }
  let ev := stateSnapshot s1
  if s1.timeLimit ≤ 0 then
    let res := stop s1
    (res.1, ev :: res.2)
  else (s1, [ev])

/-- onPoseDetected(detectedPose): ignored while inactive; otherwise
the three recognized lane names move the basket. -/
def onPoseDetected (s : Engine) (detectedPose : String) : Engine :=
  if s.isGameActive = false then s
  else if detectedPose = "Left" then { s with basketPosition := 0 }
  else if detectedPose = "Center" then { s with basketPosition := 1 }
  else if detectedPose = "Right" then { s with basketPosition := 2 }
  else s

/-- The JS expression config.timeLimit || 60: an absent field and the
falsy number 0 both fall back to 60. -/
def jsOr (v : Option ℤ) (d : ℤ) : ℤ :=
  match v with
  | none => d
  | some t => if t = 0 then d else t

/-- start(config): resets the state, starts the countdown when the
effective time limit is positive, runs spawnLoop and the first
gameLoop tick (consuming one lane draw and one category draw), and
emits the initial snapshot. -/
def start (cfg : Option ℤ) (laneIndex : ℕ) (r : ℚ) (s : Engine) :
    Engine × List GEvent :=
  let s1 := { s with isGameActive := true, score := 0, level := 1,
                     timeLimit := jsOr cfg 60, basketPosition := 1, items := [] }
  let s2 := if 0 < s1.timeLimit then { s1 with gameTimerOn := true } else s1
  let s3 := (spawnLoop s2 laneIndex r).1
  let res := gameLoop s3
  (res.1, res.2 ++ [stateSnapshot res.1])

/-- One scheduled-callback step of the engine between start and stop:
a physics tick, a spawnLoop firing (with its two random draws), a
countdown firing (possible only while its interval is scheduled), a
pose message, or an external stop() call. -/
inductive Step : Engine → Engine → Prop where
  | tick (s : Engine) : Step s (gameLoop s).1
  | spawn (s : Engine) (laneIndex : ℕ) (r : ℚ) :
      laneIndex < 3 → 0 ≤ r → r < 1 → Step s (spawnLoop s laneIndex r).1
  | timer (s : Engine) : s.gameTimerOn = true → Step s (timerTick s).1
  | pose (s : Engine) (p : String) : Step s (onPoseDetected s p)
  | stopCall (s : Engine) : Step s (stop s).1

/-- States of a run: a freshly started engine, or any Step successor. -/
inductive Reachable : Engine → Prop where
  | started (cfg : Option ℤ) (laneIndex : ℕ) (r : ℚ) (s0 : Engine) :
      laneIndex < 3 → 0 ≤ r → r < 1 → Reachable (start cfg laneIndex r s0).1
  | step {s s2 : Engine} : Reachable s → Step s s2 → Reachable s2
/-
Auxiliary states used by concrete instantiations, and the run
invariant of the scoring subsystem.
-/

/-- A freshly constructed engine switched active, with no items. -/
def demoActive : Engine := { engineInit with isGameActive := true }

/-- A mid-run state at level 3 (score 1000) with an apple and a bomb
about to enter the hit band in the basket lane. The speeds are the
ones spawnItem assigns at level 3 (5 + 1.5 and 6 + 1.5). -/
def c1State : Engine :=
  { score := 1000, level := 3, timeLimit := 30, isGameActive := true,
    basketPosition := 1,
    items := [{ type := ItemType.apple, score := 100, speed := 13/2, lane := 1, y := 490 },
              { type := ItemType.bomb, score := 0, speed := 15/2, lane := 1, y := 490 }],
    gameTimerOn := true, spawnTimerOn := true, animOn := true }

/-- An active state with a single apple entering the hit band. -/
def demoTick : Engine :=
  { score := 0, level := 1, timeLimit := 60, isGameActive := true, basketPosition := 0,
    items := [{ type := ItemType.apple, score := 100, speed := 11/2, lane := 0, y := 470 }],
    gameTimerOn := true, spawnTimerOn := true, animOn := true }

/-- The run invariant: score is non-negative, level is
Math.floor(score / 500) + 1, and every live item carries a
non-negative score value. -/
def EngineInv (s : Engine) : Prop :=
  0 ≤ s.score ∧ s.level = Int.fdiv s.score 500 + 1 ∧ ∀ it ∈ s.items, 0 ≤ it.score

/-
Helper lemmas.
-/

theorem fdiv_1100 : Int.fdiv 1100 500 = 2 := by decide

theorem apple_eq_bomb_false : (ItemType.apple = ItemType.bomb) = False :=
  eq_false (by intro h; cases h)

theorem orange_eq_bomb_false : (ItemType.orange = ItemType.bomb) = False :=
  eq_false (by intro h; cases h)

theorem apple_eq_orange_false : (ItemType.apple = ItemType.orange) = False :=
  eq_false (by intro h; cases h)

theorem bomb_eq_orange_false : (ItemType.bomb = ItemType.orange) = False :=
  eq_false (by intro h; cases h)

/-- The selection loop can only yield one of the three table rows. -/
theorem selectType_cases (r : ℚ) :
    selectType r = appleSpec ∨ selectType r = orangeSpec ∨ selectType r = bombSpec := by
  simp only [selectType, itemTypes, selectTypeAux]
  split
  · exact Or.inl rfl
  · split
    · exact Or.inr (Or.inl rfl)
    · split
      · exact Or.inr (Or.inr rfl)
      · exact Or.inl rfl

/-- At level 1 every draw produces the same apple item. -/
theorem mkSpawnedItem_level_one (laneIndex : ℕ) (r : ℚ) :
    mkSpawnedItem 1 laneIndex r =
      { type := ItemType.apple, score := 100, speed := 11/2, lane := laneIndex, y := -50 } := by
  unfold mkSpawnedItem
  rcases selectType_cases r with h | h | h <;>
    rw [h] <;>
    norm_num [appleSpec, orangeSpec, bombSpec, apple_eq_bomb_false, apple_eq_orange_false,
      bomb_eq_orange_false]

/-- Full description of the state start leaves behind: the reset
fields, the single level-1 apple spawned by spawnLoop, and the effect
of the first gameLoop tick (which moves the apple to -89/2 and
collects nothing). -/
theorem start_result (cfg : Option ℤ) (laneIndex : ℕ) (r : ℚ) (s : Engine) :
    (start cfg laneIndex r s).1 =
      { score := 0, level := 1, timeLimit := jsOr cfg 60, isGameActive := true,
        basketPosition := 1,
        items := [{ type := ItemType.apple, score := 100, speed := 11/2,
                    lane := laneIndex, y := -89/2 }],
        gameTimerOn := if 0 < jsOr cfg 60 then true else s.gameTimerOn,
        spawnTimerOn := true, animOn := true } := by
  by_cases hT : 0 < jsOr cfg 60 <;>
    norm_num [start, spawnLoop, spawnItem, mkSpawnedItem_level_one, gameLoop, updateItems,
      checkCollisions, checkCollisionsAux, moveItem, stateSnapshot, hT, abs_lt]

theorem selectType_half : selectType (1/2) = appleSpec := by
  norm_num [selectType, itemTypes, selectTypeAux, appleSpec, orangeSpec, bombSpec]

theorem selectType_seven_tenths : selectType (7/10) = orangeSpec := by
  norm_num [selectType, itemTypes, selectTypeAux, appleSpec, orangeSpec, bombSpec]

theorem selectType_nineteen_twentieths : selectType (19/20) = bombSpec := by
  norm_num [selectType, itemTypes, selectTypeAux, appleSpec, orangeSpec, bombSpec]

/-- handleItemCollection never moves the basket, the clock, or the
item list. -/
theorem handleCollect_frame (s : Engine) (it : Item) :
    (handleItemCollection s it).1.basketPosition = s.basketPosition ∧
    (handleItemCollection s it).1.timeLimit = s.timeLimit ∧
    (handleItemCollection s it).1.items = s.items := by
  unfold handleItemCollection
  split <;> simp [stop, addScore]

/-- The collision loop never moves the basket, the clock, or the
items field of the threaded state. -/
theorem checkAux_frame (items : List Item) (s : Engine) :
    (checkCollisionsAux items s).1.basketPosition = s.basketPosition ∧
    (checkCollisionsAux items s).1.timeLimit = s.timeLimit ∧
    (checkCollisionsAux items s).1.items = s.items := by
  induction items with
  | nil => exact ⟨rfl, rfl, rfl⟩
  | cons it rest ih =>
      simp only [checkCollisionsAux]
      split
      · split
        · obtain ⟨h1, h2, h3⟩ := handleCollect_frame (checkCollisionsAux rest s).1 it
          exact ⟨h1.trans ih.1, h2.trans ih.2.1, h3.trans ih.2.2⟩
        · exact ih
      · exact ih

/-- The collision loop partitions its input: the collected items are
exactly those in the hit band in the basket lane, the kept items
exactly the others, both with their original multiplicities. -/
theorem checkAux_spec (items : List Item) (s : Engine) :
    (checkCollisionsAux items s).2.2.1 =
      items.filter (fun it => decide (abs (it.y - 500) < 30) && decide (it.lane = s.basketPosition)) ∧
    (checkCollisionsAux items s).2.1 =
      items.filter (fun it => !(decide (abs (it.y - 500) < 30) && decide (it.lane = s.basketPosition))) := by
  induction items with
  | nil => exact ⟨rfl, rfl⟩
  | cons it rest ih =>
      have hb := (checkAux_frame rest s).1
      simp only [checkCollisionsAux, List.filter, hb]
      by_cases h1 : abs (it.y - 500) < 30
      · by_cases h2 : it.lane = s.basketPosition
        · simp [h1, h2, ih.1, ih.2]
        · simp [h1, h2, ih.1, ih.2]
      · simp [h1, ih.1, ih.2]

theorem gameLoop_items_eq (s : Engine) (hA : s.isGameActive = true) :
    (gameLoop s).1.items = (checkCollisionsAux (updateItems s).items (updateItems s)).2.1 := by
  unfold gameLoop
  rw [if_neg (by simp [hA])]
  rfl

theorem hit_band_low (it : Item) (h : abs (it.y - 500) < 30) : ¬ 600 < it.y := by
  rw [abs_lt] at h
  intro hc
  linarith [h.2]

theorem fdiv500_mono {a b : ℤ} (h : a ≤ b) : Int.fdiv a 500 ≤ Int.fdiv b 500 := by
  rw [Int.fdiv_eq_ediv _ (by norm_num), Int.fdiv_eq_ediv _ (by norm_num)]
  exact Int.ediv_le_ediv (by norm_num) h

theorem addScore_level_le (s : Engine) (p : ℤ) : s.level ≤ (addScore s p).1.level := by
  simp only [addScore]
  split <;> omega

theorem addScore_inv (s : Engine) (p : ℤ) (hp : 0 ≤ p) (h0 : 0 ≤ s.score)
    (hl : s.level = Int.fdiv s.score 500 + 1) :
    0 ≤ (addScore s p).1.score ∧
    (addScore s p).1.level = Int.fdiv (addScore s p).1.score 500 + 1 := by
  have hmono := fdiv500_mono (show s.score ≤ s.score + p by omega)
  simp only [addScore]
  constructor
  · show 0 ≤ s.score + p
    omega
  · show (if Int.fdiv (s.score + p) 500 + 1 > s.level then Int.fdiv (s.score + p) 500 + 1
          else s.level) = Int.fdiv (s.score + p) 500 + 1
    split <;> omega

theorem handleCollect_level_le (s : Engine) (it : Item) :
    s.level ≤ (handleItemCollection s it).1.level := by
  unfold handleItemCollection
  split
  · simp [stop]
  · exact addScore_level_le s it.score

theorem handleCollect_inv (s : Engine) (it : Item) (hsc : 0 ≤ it.score) (h0 : 0 ≤ s.score)
    (hl : s.level = Int.fdiv s.score 500 + 1) :
    0 ≤ (handleItemCollection s it).1.score ∧
    (handleItemCollection s it).1.level = Int.fdiv (handleItemCollection s it).1.score 500 + 1 := by
  unfold handleItemCollection
  split
  · simpa [stop] using ⟨h0, hl⟩
  · exact addScore_inv s it.score hsc h0 hl

theorem checkAux_level_le (items : List Item) (s : Engine) :
    s.level ≤ (checkCollisionsAux items s).1.level := by
  induction items with
  | nil => exact le_rfl
  | cons it rest ih =>
      simp only [checkCollisionsAux]
      split
      · split
        · exact le_trans ih (handleCollect_level_le _ it)
        · exact ih
      · exact ih

theorem checkAux_inv (items : List Item) (s : Engine) (h0 : 0 ≤ s.score)
    (hl : s.level = Int.fdiv s.score 500 + 1) :
    (∀ it ∈ items, 0 ≤ it.score) →
    0 ≤ (checkCollisionsAux items s).1.score ∧
    (checkCollisionsAux items s).1.level =
      Int.fdiv (checkCollisionsAux items s).1.score 500 + 1 := by
  induction items with
  | nil => exact fun _ => ⟨h0, hl⟩
  | cons it rest ih =>
      intro hits
      have ih2 := ih (fun x hx => hits x (List.mem_cons_of_mem _ hx))
      simp only [checkCollisionsAux]
      split
      · split
        · exact handleCollect_inv _ it (hits it (List.mem_cons_self _ _)) ih2.1 ih2.2
        · exact ih2
      · exact ih2

theorem gameLoop_inactive (s : Engine) (hA : s.isGameActive = false) : gameLoop s = (s, []) := by
  unfold gameLoop
  rw [if_pos hA]

theorem gameLoop_scalars (s : Engine) (hA : s.isGameActive = true) :
    (gameLoop s).1.score = (checkCollisionsAux (updateItems s).items (updateItems s)).1.score ∧
    (gameLoop s).1.level = (checkCollisionsAux (updateItems s).items (updateItems s)).1.level := by
  unfold gameLoop
  rw [if_neg (by simp [hA])]
  exact ⟨rfl, rfl⟩

theorem updateItems_scores (s : Engine) (h : ∀ it ∈ s.items, 0 ≤ it.score) :
    ∀ it ∈ (updateItems s).items, 0 ≤ it.score := by
  intro it hmem
  simp only [updateItems] at hmem
  obtain ⟨hmem2, _⟩ := List.mem_filter.mp hmem
  obtain ⟨it0, hit0, rfl⟩ := List.mem_map.mp hmem2
  exact h it0 hit0

theorem checkAux_kept_mem (items : List Item) (s : Engine) (it : Item)
    (h : it ∈ (checkCollisionsAux items s).2.1) : it ∈ items := by
  rw [(checkAux_spec items s).2] at h
  exact (List.mem_filter.mp h).1

theorem gameLoop_inv (s : Engine) (h : EngineInv s) : EngineInv (gameLoop s).1 := by
  by_cases hA : s.isGameActive = true
  · obtain ⟨h0, hl, hits⟩ := h
    have hu : ∀ it ∈ (updateItems s).items, 0 ≤ it.score := updateItems_scores s hits
    have hinv := checkAux_inv (updateItems s).items (updateItems s) h0 hl hu
    obtain ⟨hsc, hlv⟩ := gameLoop_scalars s hA
    refine ⟨?_, ?_, ?_⟩
    · rw [hsc]
      exact hinv.1
    · rw [hsc, hlv]
      exact hinv.2
    · intro it hmem
      rw [gameLoop_items_eq s hA] at hmem
      exact hu it (checkAux_kept_mem _ _ it hmem)
  · rw [gameLoop_inactive s (by simpa using hA)]
    exact h

theorem mkSpawnedItem_score_nonneg (level : ℤ) (laneIndex : ℕ) (r : ℚ) :
    0 ≤ (mkSpawnedItem level laneIndex r).score := by
  unfold mkSpawnedItem
  rcases selectType_cases r with h | h | h <;> rw [h] <;> dsimp only <;> split_ifs <;>
    norm_num [appleSpec, orangeSpec, bombSpec]

theorem spawnLoop_inactive (s : Engine) (laneIndex : ℕ) (r : ℚ)
    (hA : s.isGameActive = false) : spawnLoop s laneIndex r = (s, none) := by
  unfold spawnLoop
  rw [if_pos hA]

theorem spawnLoop_inv (s : Engine) (laneIndex : ℕ) (r : ℚ) (h : EngineInv s) :
    EngineInv (spawnLoop s laneIndex r).1 := by
  by_cases hA : s.isGameActive = false
  · rw [spawnLoop_inactive s laneIndex r hA]
    exact h
  · unfold spawnLoop
    rw [if_neg hA]
    refine ⟨h.1, h.2.1, ?_⟩
    intro it hmem
    simp only [spawnItem] at hmem
    rcases List.mem_append.mp hmem with hmem2 | hmem2
    · exact h.2.2 it hmem2
    · rw [List.mem_singleton.mp hmem2]
      exact mkSpawnedItem_score_nonneg s.level laneIndex r

theorem stop_inv (s : Engine) (h : EngineInv s) : EngineInv (stop s).1 :=
  ⟨h.1, h.2.1, h.2.2⟩

theorem timerTick_inv (s : Engine) (h : EngineInv s) : EngineInv (timerTick s).1 := by
  unfold timerTick
  dsimp only
  split
  · exact ⟨h.1, h.2.1, h.2.2⟩
  · exact ⟨h.1, h.2.1, h.2.2⟩

theorem pose_inv (s : Engine) (p : String) (h : EngineInv s) :
    EngineInv (onPoseDetected s p) := by
  unfold onPoseDetected
  split
  · exact h
  · split
    · exact ⟨h.1, h.2.1, h.2.2⟩
    · split
      · exact ⟨h.1, h.2.1, h.2.2⟩
      · split
        · exact ⟨h.1, h.2.1, h.2.2⟩
        · exact h

theorem start_inv (cfg : Option ℤ) (laneIndex : ℕ) (r : ℚ) (s : Engine) :
    EngineInv (start cfg laneIndex r s).1 := by
  rw [start_result]
  refine ⟨le_rfl, show (1:ℤ) = Int.fdiv 0 500 + 1 by decide, ?_⟩
  intro it hmem
  rw [List.mem_singleton.mp hmem]
  norm_num

theorem gameLoop_level_le (s : Engine) : s.level ≤ (gameLoop s).1.level := by
  by_cases hA : s.isGameActive = true
  · rw [(gameLoop_scalars s hA).2]
    exact checkAux_level_le (updateItems s).items (updateItems s)
  · rw [gameLoop_inactive s (by simpa using hA)]

theorem spawnLoop_level_eq (s : Engine) (laneIndex : ℕ) (r : ℚ) :
    (spawnLoop s laneIndex r).1.level = s.level := by
  by_cases hA : s.isGameActive = false
  · rw [spawnLoop_inactive s laneIndex r hA]
  · unfold spawnLoop
    rw [if_neg hA]
    rfl

theorem timerTick_level_eq (s : Engine) : (timerTick s).1.level = s.level := by
  unfold timerTick
  dsimp only
  split
  · rfl
  · rfl

theorem pose_level_eq (s : Engine) (p : String) : (onPoseDetected s p).level = s.level := by
  unfold onPoseDetected
  split
  · rfl
  · split
    · rfl
    · split
      · rfl
      · split
        · rfl
        · rfl

theorem step_level_le {s s2 : Engine} (h : Step s s2) : s.level ≤ s2.level := by
  cases h with
  | tick => exact gameLoop_level_le s
  | spawn laneIndex r h1 h2 h3 => exact le_of_eq (spawnLoop_level_eq s laneIndex r).symm
  | timer hT => exact le_of_eq (timerTick_level_eq s).symm
  | pose p => exact le_of_eq (pose_level_eq s p).symm
  | stopCall => exact le_rfl

theorem step_inv {s s2 : Engine} (h : EngineInv s) (hs : Step s s2) : EngineInv s2 := by
  cases hs with
  | tick => exact gameLoop_inv s h
  | spawn laneIndex r h1 h2 h3 => exact spawnLoop_inv s laneIndex r h
  | timer hT => exact timerTick_inv s h
  | pose p => exact pose_inv s p h
  | stopCall => exact stop_inv s h

theorem reachable_inv (s : Engine) (h : Reachable s) : EngineInv s := by
  induction h with
  | started cfg laneIndex r s0 h1 h2 h3 => exact start_inv cfg laneIndex r s0
  | step hr hstep ih => exact step_inv ih hstep

/-
Claim theorems.
-/

/-- Claim C1 (refuting evaluation). The claim states that after stop()
returns no further state mutation happens and no further onStateUpdate
notification is emitted, including for a bomb collection occurring
mid-tick. At c1State (level 3, score 1000, an apple and a bomb both
entering the hit band of the basket lane), the single physics tick
first collects the bomb, so stop() runs and emits onGameEnd with score
1000; the tick then nevertheless scores the apple (score mutates to
1100, onScoreChange fires) and emits a further state snapshot - both
after stop() returned. -/
theorem c1_bomb_tick_mutates_after_stop :
    (gameLoop c1State).2 =
      [GEvent.gameEnd 1000 3, GEvent.scoreChange 1100 3, GEvent.stateUpdate 1 [] 30 1100 3] ∧
    (gameLoop c1State).1.score = 1100 ∧
    (gameLoop c1State).1.isGameActive = false := by
  norm_num [gameLoop, c1State, updateItems, moveItem, checkCollisions, checkCollisionsAux,
    handleItemCollection, addScore, stop, stateSnapshot, abs_lt, fdiv_1100,
    apple_eq_bomb_false]

/-- Claim C2 (counterexample). Starting with config.timeLimit = 0 does
not configure an unlimited game: the remaining time becomes 60, not 0,
and the countdown loop is started. -/
theorem c2_counterexample :
    (start (some 0) 0 0 engineInit).1.timeLimit = 60 ∧
    (start (some 0) 0 0 engineInit).1.gameTimerOn = true ∧
    ¬ (start (some 0) 0 0 engineInit).1.timeLimit = 0 := by
  rw [start_result]
  norm_num [jsOr]

/-- Claim C2 (amended). Because start uses config.timeLimit || 60, a
configured 0 falls back to the default 60. From a state with no
countdown scheduled, the remaining time after start is
jsOr config 60 and the countdown loop is started exactly when that
effective limit is positive - so for timeLimit = 0 the countdown does
start, and only a negative configured timeLimit avoids it. -/
theorem c2_start_time_semantics (cfg : Option ℤ) (laneIndex : ℕ) (r : ℚ) (s : Engine)
    (h : s.gameTimerOn = false) :
    (start cfg laneIndex r s).1.timeLimit = jsOr cfg 60 ∧
    ((start cfg laneIndex r s).1.gameTimerOn = true ↔ 0 < jsOr cfg 60) := by
  rw [start_result]
  constructor
  · rfl
  · by_cases hT : 0 < jsOr cfg 60 <;> simp [hT, h]

/-- Witness for C2: instantiating at timeLimit = 0 from a fresh
engine. -/
theorem c2_witness :
    (start (some 0) 1 (1/2) engineInit).1.timeLimit = jsOr (some 0) 60 ∧
    ((start (some 0) 1 (1/2) engineInit).1.gameTimerOn = true ↔ 0 < jsOr (some 0) 60) :=
  c2_start_time_semantics (some 0) 1 (1/2) engineInit rfl

/-- Claim C3. Collecting a bomb-category item makes the engine
inactive and fires the game-end notification carrying the score and
level at the moment of the collision; the score is unchanged by the
bomb. Holds for every state, hence at every level. -/
theorem c3_bomb_ends_game (s : Engine) (item : Item) (h : item.type = ItemType.bomb) :
    (handleItemCollection s item).1.isGameActive = false ∧
    (handleItemCollection s item).1.score = s.score ∧
    (handleItemCollection s item).1.level = s.level ∧
    (handleItemCollection s item).2 = [GEvent.gameEnd s.score s.level] := by
  simp [handleItemCollection, h, stop]

/-- Witness for C3: a bomb collected at level 3 in c1State. -/
theorem c3_witness :
    (handleItemCollection c1State { type := ItemType.bomb, score := 0, speed := 15/2, lane := 1, y := 490 }).1.isGameActive = false ∧
    (handleItemCollection c1State { type := ItemType.bomb, score := 0, speed := 15/2, lane := 1, y := 490 }).1.score = c1State.score ∧
    (handleItemCollection c1State { type := ItemType.bomb, score := 0, speed := 15/2, lane := 1, y := 490 }).1.level = c1State.level ∧
    (handleItemCollection c1State { type := ItemType.bomb, score := 0, speed := 15/2, lane := 1, y := 490 }).2 = [GEvent.gameEnd c1State.score c1State.level] :=
  c3_bomb_ends_game c1State _ rfl

/-- Claim C4. In every reachable state the score is non-negative and
the level equals Math.floor(score / 500) + 1 (so in particular after
every scoring event), and no step of a run ever decreases the
level. -/
theorem c4_score_level_invariant :
    (∀ s : Engine, Reachable s → 0 ≤ s.score ∧ s.level = Int.fdiv s.score 500 + 1) ∧
    (∀ s s2 : Engine, Step s s2 → s.level ≤ s2.level) := by
  constructor
  · intro s h
    exact ⟨(reachable_inv s h).1, (reachable_inv s h).2.1⟩
  · intro s s2 h
    exact step_level_le h

/-- Witness for C4: the freshly started engine is reachable and
satisfies the invariant, and an external stop() step keeps the level
non-decreasing. -/
theorem c4_witness :
    (0 ≤ (start none 0 0 engineInit).1.score ∧
     (start none 0 0 engineInit).1.level = Int.fdiv (start none 0 0 engineInit).1.score 500 + 1) ∧
    (start none 0 0 engineInit).1.level ≤ ((stop (start none 0 0 engineInit).1).1).level :=
  ⟨c4_score_level_invariant.1 (start none 0 0 engineInit).1
      (Reachable.started none 0 0 engineInit (by norm_num) (by norm_num) (by norm_num)),
   c4_score_level_invariant.2 (start none 0 0 engineInit).1 (stop (start none 0 0 engineInit).1).1
      (Step.stopCall (start none 0 0 engineInit).1)⟩

/-- Claim C5. Spawn category obeys the level gating: spawnItem appends
exactly the item built from the draws; below level 2 only apple ever
spawns; at level 2 a bomb never spawns but orange is reachable; from
level 3 on all three categories are reachable. -/
theorem c5_level_gating :
    (∀ (s : Engine) (laneIndex : ℕ) (r : ℚ),
        (spawnItem s laneIndex r).items = s.items ++ [mkSpawnedItem s.level laneIndex r]) ∧
    (∀ (level : ℤ) (laneIndex : ℕ) (r : ℚ), level < 2 →
        (mkSpawnedItem level laneIndex r).type = ItemType.apple) ∧
    (∀ (level : ℤ) (laneIndex : ℕ) (r : ℚ), 2 ≤ level → level < 3 →
        (mkSpawnedItem level laneIndex r).type ≠ ItemType.bomb) ∧
    (∀ (level : ℤ) (laneIndex : ℕ), 2 ≤ level → level < 3 →
        ∃ r : ℚ, 0 ≤ r ∧ r < 1 ∧ (mkSpawnedItem level laneIndex r).type = ItemType.orange) ∧
    (∀ (level : ℤ) (laneIndex : ℕ), 3 ≤ level →
        (∃ r : ℚ, 0 ≤ r ∧ r < 1 ∧ (mkSpawnedItem level laneIndex r).type = ItemType.apple) ∧
        (∃ r : ℚ, 0 ≤ r ∧ r < 1 ∧ (mkSpawnedItem level laneIndex r).type = ItemType.orange) ∧
        (∃ r : ℚ, 0 ≤ r ∧ r < 1 ∧ (mkSpawnedItem level laneIndex r).type = ItemType.bomb)) := by
  refine ⟨fun s laneIndex r => rfl, ?_, ?_, ?_, ?_⟩
  · intro level laneIndex r h
    have h3 : level < 3 := by omega
    unfold mkSpawnedItem
    rcases selectType_cases r with hs | hs | hs <;>
      rw [hs] <;>
      simp [appleSpec, orangeSpec, bombSpec, apple_eq_bomb_false, apple_eq_orange_false,
        bomb_eq_orange_false, h, h3]
  · intro level laneIndex r h2 h3
    have hn2 : ¬ level < 2 := by omega
    unfold mkSpawnedItem
    rcases selectType_cases r with hs | hs | hs <;>
      rw [hs] <;>
      simp [appleSpec, orangeSpec, bombSpec, apple_eq_bomb_false, apple_eq_orange_false,
        bomb_eq_orange_false, hn2, h3]
  · intro level laneIndex h2 h3
    refine ⟨7/10, by norm_num, by norm_num, ?_⟩
    have hn2 : ¬ level < 2 := by omega
    unfold mkSpawnedItem
    rw [selectType_seven_tenths]
    simp [orangeSpec, appleSpec, bomb_eq_orange_false, orange_eq_bomb_false, hn2]
  · intro level laneIndex h3
    have hn2 : ¬ level < 2 := by omega
    have hn3 : ¬ level < 3 := by omega
    refine ⟨⟨1/2, by norm_num, by norm_num, ?_⟩, ⟨7/10, by norm_num, by norm_num, ?_⟩,
           ⟨19/20, by norm_num, by norm_num, ?_⟩⟩
    · unfold mkSpawnedItem
      rw [selectType_half]
      simp [appleSpec, apple_eq_orange_false, apple_eq_bomb_false]
    · unfold mkSpawnedItem
      rw [selectType_seven_tenths]
      simp [orangeSpec, appleSpec, orange_eq_bomb_false, hn2]
    · unfold mkSpawnedItem
      rw [selectType_nineteen_twentieths]
      simp [bombSpec, appleSpec, bomb_eq_orange_false, hn3]

/-- Witness for C5: concrete draws at levels 1, 2 and 3. -/
theorem c5_witness :
    (spawnItem engineInit 0 (1/2)).items = engineInit.items ++ [mkSpawnedItem engineInit.level 0 (1/2)] ∧
    (mkSpawnedItem 1 0 (1/2)).type = ItemType.apple ∧
    (mkSpawnedItem 2 0 (19/20)).type ≠ ItemType.bomb ∧
    (∃ r : ℚ, 0 ≤ r ∧ r < 1 ∧ (mkSpawnedItem 2 1 r).type = ItemType.orange) ∧
    ((∃ r : ℚ, 0 ≤ r ∧ r < 1 ∧ (mkSpawnedItem 3 2 r).type = ItemType.apple) ∧
     (∃ r : ℚ, 0 ≤ r ∧ r < 1 ∧ (mkSpawnedItem 3 2 r).type = ItemType.orange) ∧
     (∃ r : ℚ, 0 ≤ r ∧ r < 1 ∧ (mkSpawnedItem 3 2 r).type = ItemType.bomb)) :=
  ⟨c5_level_gating.1 engineInit 0 (1/2),
   c5_level_gating.2.1 1 0 (1/2) (by norm_num),
   c5_level_gating.2.2.1 2 0 (19/20) (by norm_num) (by norm_num),
   c5_level_gating.2.2.2.1 2 1 (by norm_num) (by norm_num),
   c5_level_gating.2.2.2.2 3 2 (by norm_num)⟩

/-- Claim C6. Within an active tick, the collected items are exactly
the position-updated items with |y - 500| < 30 in the basket lane
(each occurrence collected once), and the items surviving the tick
are exactly the updated items that neither left the play area nor
were collected - so a collected item is gone from every later
tick. -/
theorem c6_collision_membership (s : Engine) (hA : s.isGameActive = true) :
    (checkCollisionsAux (updateItems s).items (updateItems s)).2.2.1 =
      (s.items.map moveItem).filter
        (fun it => decide (abs (it.y - 500) < 30) && decide (it.lane = s.basketPosition)) ∧
    (gameLoop s).1.items =
      (s.items.map moveItem).filter
        (fun it => !decide (600 < it.y) &&
                   !(decide (abs (it.y - 500) < 30) && decide (it.lane = s.basketPosition))) := by
  constructor
  · have hs := (checkAux_spec (updateItems s).items (updateItems s)).1
    have hbp : (updateItems s).basketPosition = s.basketPosition := rfl
    rw [hbp] at hs
    rw [hs]
    show ((s.items.map moveItem).filter (fun it => !decide (600 < it.y))).filter _ = _
    rw [List.filter_filter]
    refine List.filter_congr ?_
    intro it _
    by_cases h1 : abs (it.y - 500) < 30
    · simp [h1, hit_band_low it h1]
    · simp [h1]
  · have hs := (checkAux_spec (updateItems s).items (updateItems s)).2
    have hbp : (updateItems s).basketPosition = s.basketPosition := rfl
    rw [hbp] at hs
    rw [gameLoop_items_eq s hA, hs]
    show ((s.items.map moveItem).filter (fun it => !decide (600 < it.y))).filter _ = _
    rw [List.filter_filter]
    refine List.filter_congr ?_
    intro it _
    by_cases h1 : abs (it.y - 500) < 30
    · simp [h1, Bool.and_comm]
    · simp [h1]

/-- Witness for C6: the demoTick state with one apple entering the hit
band. -/
theorem c6_witness :
    (checkCollisionsAux (updateItems demoTick).items (updateItems demoTick)).2.2.1 =
      (demoTick.items.map moveItem).filter
        (fun it => decide (abs (it.y - 500) < 30) && decide (it.lane = demoTick.basketPosition)) ∧
    (gameLoop demoTick).1.items =
      (demoTick.items.map moveItem).filter
        (fun it => !decide (600 < it.y) &&
                   !(decide (abs (it.y - 500) < 30) && decide (it.lane = demoTick.basketPosition))) :=
  c6_collision_membership demoTick rfl

/-- Claim C7. While active, spawnLoop schedules its next run after
exactly max(800, 3000 - level * 400) milliseconds; this delay is
non-increasing in the level and never drops below 800. -/
theorem c7_spawn_delay :
    (∀ (s : Engine) (laneIndex : ℕ) (r : ℚ), s.isGameActive = true →
        (spawnLoop s laneIndex r).2 = some (max 800 (3000 - s.level * 400))) ∧
    (∀ L1 L2 : ℤ, L1 ≤ L2 → spawnRate L2 ≤ spawnRate L1) ∧
    (∀ L : ℤ, 800 ≤ spawnRate L) := by
  refine ⟨?_, ?_, ?_⟩
  · intro s laneIndex r h
    simp [spawnLoop, h, spawnRate]
  · intro L1 L2 h
    exact max_le_max le_rfl (by omega)
  · intro L
    exact le_max_left _ _

/-- Witness for C7: concrete delays at levels 1, 2 and 7. -/
theorem c7_witness :
    (spawnLoop demoActive 0 0).2 = some (max 800 (3000 - demoActive.level * 400)) ∧
    spawnRate 2 ≤ spawnRate 1 ∧ 800 ≤ spawnRate 7 :=
  ⟨c7_spawn_delay.1 demoActive 0 0 rfl, c7_spawn_delay.2.1 1 2 (by decide), c7_spawn_delay.2.2 7⟩

/-- Claim C8. The position-update phase removes exactly the items
whose updated position exceeds 600, every surviving item satisfies
y ≤ 600, and the removal leaves score, level, remaining time and
basket lane untouched. -/
theorem c8_offscreen_removal (s : Engine) :
    (updateItems s).items.all (fun it => !decide (600 < it.y)) = true ∧
    (updateItems s).items = (s.items.map moveItem).filter (fun it => !decide (600 < it.y)) ∧
    (updateItems s).score = s.score ∧
    (updateItems s).level = s.level ∧
    (updateItems s).timeLimit = s.timeLimit ∧
    (updateItems s).basketPosition = s.basketPosition := by
  refine ⟨?_, rfl, rfl, rfl, rfl, rfl⟩
  simp only [updateItems, List.all_eq_true]
  intro it hmem
  exact (List.mem_filter.mp hmem).2

/-- Claim C9. The basket mutator: while inactive every call leaves the
whole state unchanged; while active the three symbolic lane names set
the basket lane to 0, 1 and 2 respectively and change nothing else. -/
theorem c9_basket_mutator (s : Engine) :
    (s.isGameActive = false → ∀ p : String, onPoseDetected s p = s) ∧
    (s.isGameActive = true →
      onPoseDetected s "Left" = { s with basketPosition := 0 } ∧
      onPoseDetected s "Center" = { s with basketPosition := 1 } ∧
      onPoseDetected s "Right" = { s with basketPosition := 2 }) := by
  constructor
  · intro h p
    simp [onPoseDetected, h]
  · intro h
    refine ⟨?_, ?_, ?_⟩ <;> simp [onPoseDetected, h]

/-- Witness for C9: a call on the inactive fresh engine and a lane
move on an active one. -/
theorem c9_witness :
    onPoseDetected engineInit "Left" = engineInit ∧
    onPoseDetected demoActive "Right" = { demoActive with basketPosition := 2 } :=
  ⟨(c9_basket_mutator engineInit).1 rfl "Left", ((c9_basket_mutator demoActive).2 rfl).2.2⟩

/-- Claim C10. With an absent or zero (falsy) timeLimit, start sets
the remaining time to the default 60 and starts the countdown
loop. -/
theorem c10_default_time_limit (cfg : Option ℤ) (h : cfg = none ∨ cfg = some 0)
    (laneIndex : ℕ) (r : ℚ) (s : Engine) :
    (start cfg laneIndex r s).1.timeLimit = 60 ∧
    (start cfg laneIndex r s).1.gameTimerOn = true := by
  have h60 : jsOr cfg 60 = 60 := by
    rcases h with h | h <;> simp [h, jsOr]
  rw [start_result]
  simp [h60]

/-- Witness for C10: a start with no timeLimit field. -/
theorem c10_witness :
    (start none 2 (1/3) engineInit).1.timeLimit = 60 ∧
    (start none 2 (1/3) engineInit).1.gameTimerOn = true :=
  c10_default_time_limit none (Or.inl rfl) 2 (1/3) engineInit

end Game
